import Mathlib

/-!
Verification development for the tooliscode repository: a WASI-sandboxed
python tool runtime.  The development shallowly embeds the pure logic of

  * the length-prefixed framing codec (host.py: lp_write / lp_read,
    guest_helpers.py: lp_write / lp_read),
  * the guest main loop dispatch (guest.py),
  * the guest tool-call runtime (guest_helpers.py: tool_call,
    ToolRuntime.invoke and its response-await loop),
  * the host session logic (host.py: Session exec_cell result assembly and
    the tool-request handler),
  * the facade (package init: ToolIsCode.tool_call and the construction
    sequence of ToolIsCode),
  * the stub generator surface relevant to call-arity and identifier
    normalisation (functions.py: ToolFunctionEmitter).

JSON values decoded with the python stdlib json module are modelled by the
inductive type Json below; json.loads is modelled by the executable parser
pyJsonLoads (restricted to integers, no unicode escapes: the frames built
by this repository stay inside that fragment).  Machine byte streams are
modelled as lists of naturals (byte values); ASCII text coincides with its
UTF-8 encoding on all bytes used here.
-/

/-- JSON values as decoded by json.loads: null, booleans, (integer)
numbers, strings, arrays and objects (insertion-ordered key/value lists,
matching python dict order). -/
inductive Json where
  | null : Json
  | bool (b : Bool) : Json
  | num (n : Int) : Json
  | str (s : String) : Json
  | arr (xs : List Json) : Json
  | obj (kvs : List (String × Json)) : Json

/-- Dictionary lookup, python dict.get(k): first binding wins (keys of
frames built by this repository are unique); returns none on a missing key
and on non-objects (where python would raise; the loops modelled here only
call get on decoded dicts). -/
def Json.get (j : Json) (k : String) : Option Json :=
  match j with
  | .obj kvs => lookupKV kvs
  | _ => none
where
  lookupKV : List (String × Json) → Option Json
    | [] => none
    | (k', v) :: rest => if k' = k then some v else lookupKV rest

/-- dict.get(k, default). -/
def Json.getD (j : Json) (k : String) (dflt : Json) : Json :=
  (j.get k).getD dflt

/-- python dict.setdefault(k, v): insert v under k only when k is absent;
a new key lands at the end (dict insertion order).  Identity on
non-objects. -/
def Json.setdefault (j : Json) (k : String) (v : Json) : Json :=
  match j with
  | .obj kvs => if (kvs.map Prod.fst).contains k then .obj kvs else .obj (kvs ++ [(k, v)])
  | other => other

/-- python truth-value test on decoded JSON: None, False, 0, "", [] and
empty dicts are falsy. -/
def Json.pyFalsy (j : Json) : Bool :=
  match j with
  | .null => true
  | .bool b => !b
  | .num n => n = 0
  | .str s => s = ""
  | .arr xs => xs.isEmpty
  | .obj kvs => kvs.isEmpty

/-- Truthiness of a dict.get result: an absent key yields python None,
which is falsy. -/
def pyTruthyOpt (o : Option Json) : Bool :=
  match o with
  | none => false
  | some v => !v.pyFalsy

/-- Is the value a python dict (isinstance(x, dict) on decoded JSON)? -/
def Json.isObj (j : Json) : Bool :=
  match j with
  | .obj _ => true
  | _ => false

mutual

/-- python str()/repr() rendering of decoded JSON values, used only to
format the unknown-type diagnostic f-string in the guest loop.  Container
rendering follows python repr for values whose strings need no quoting or
escaping; the claims below only exercise the string and None cases. -/
def pyStrOfJson : Json → String
  | .null => "None"
  | .bool b => if b then "True" else "False"
  | .num n => toString n
  | .str s => s
  | .arr xs => "[" ++ String.intercalate ", " (pyReprList xs) ++ "]"
  | .obj kvs => "\x7b" ++ String.intercalate ", " (pyReprKVs kvs) ++ "\x7d"

/-- python repr of decoded JSON values (strings quoted). -/
def pyReprJson : Json → String
  | .null => "None"
  | .bool b => if b then "True" else "False"
  | .num n => toString n
  | .str s => "'" ++ s ++ "'"
  | .arr xs => "[" ++ String.intercalate ", " (pyReprList xs) ++ "]"
  | .obj kvs => "\x7b" ++ String.intercalate ", " (pyReprKVs kvs) ++ "\x7d"

def pyReprList : List Json → List String
  | [] => []
  | x :: xs => pyReprJson x :: pyReprList xs

def pyReprKVs : List (String × Json) → List String
  | [] => []
  | (k, v) :: xs => ("'" ++ k ++ "': " ++ pyReprJson v) :: pyReprKVs xs

end

/-- str() of a dict.get result, for f-string formatting: None prints as
"None". -/
def pyStrOfOpt (o : Option Json) : String :=
  match o with
  | none => "None"
  | some v => pyStrOfJson v

/-- ASCII bytes of a string (the strings handled here are ASCII, where
UTF-8 encoding is the identity on code points). -/
def strBytes (s : String) : List Nat :=
  s.toList.map Char.toNat

/-! ## Framing codec (host.py lp_write / lp_read, guest_helpers.py lp_read)

A frame is an ASCII decimal byte count, a newline (byte 10), then exactly
that many payload bytes.  json.dumps / json.loads are the python stdlib:
the codec functions below take the serialiser (enc) and deserialiser (dec)
as parameters, instantiated with the JSON model where a claim needs it. -/

/-- Little-endian decimal digits of n, by repeated division; fuel-driven so
that it reduces in the kernel.  Agrees with Nat.digits 10 when fuel ≥ n
(digitsLE_eq_digits below). -/
def digitsLE : Nat → Nat → List Nat
  | 0, _ => []
  | fuel + 1, n => if n = 0 then [] else n % 10 :: digitsLE fuel (n / 10)

/-- ASCII bytes of str(n) for a natural n, as produced by the frame
writers (str(len(b)).encode("ascii")). -/
def asciiDecimal (n : Nat) : List Nat :=
  if n = 0 then [48] else ((digitsLE n n).map (· + 48)).reverse

/-- Byte is an ASCII digit. -/
def isDigitByte (b : Nat) : Bool := 48 ≤ b && b ≤ 57

/-- Byte is python str.strip / int() whitespace. -/
def isWsByte (b : Nat) : Bool :=
  b = 32 || b = 9 || b = 10 || b = 13 || b = 11 || b = 12

/-- Strip whitespace bytes from both ends (bytes.strip()). -/
def stripWsBytes (l : List Nat) : List Nat :=
  ((l.dropWhile isWsByte).reverse.dropWhile isWsByte).reverse

/-- Value of a list of ASCII digit bytes, most significant first. -/
def parseDigits (l : List Nat) : Nat :=
  l.foldl (fun a b => a * 10 + (b - 48)) 0

/-- python int() on stripped ASCII bytes: optional sign then nonempty
digits; none models the ValueError raise.  (Underscore digit separators,
accepted by int(), are never produced by the writers and are not
modelled.) -/
def parsePyIntCore (l : List Nat) : Option Int :=
  match l with
  | [] => none
  | b :: bs =>
    if b = 43 then
      if bs ≠ [] && bs.all isDigitByte then some (parseDigits bs : Nat) else none
    else if b = 45 then
      if bs ≠ [] && bs.all isDigitByte then some (-(parseDigits bs : Int)) else none
    else if (b :: bs).all isDigitByte then some (parseDigits (b :: bs) : Nat) else none

/-- Host header value: int(header.strip() or b"0") — empty header falls
back to 0. -/
def parseHeaderHost (l : List Nat) : Option Int :=
  let s := stripWsBytes l
  if s.isEmpty then some 0 else parsePyIntCore s

/-- Errors of the host frame reader (host.py lp_read): EOFError before or
inside a frame, the oversize/invalid-header ValueError, the frame-too-large
ValueError, and json.JSONDecodeError. -/
inductive HostReadErr where
  | eof : HostReadErr
  | invalidHeader : HostReadErr
  | badInt : HostReadErr
  | frameTooLarge : HostReadErr
  | truncated : HostReadErr
  | badJson : HostReadErr
deriving DecidableEq

/-- Split the header line off a byte stream, host side: bytes are
accumulated one at a time until a newline; more than 64 bytes without a
newline is an invalid header.  Returns the header without its newline
(bytes.strip() in the caller removes the newline anyway). -/
def splitHeader : Nat → List Nat → Except HostReadErr (List Nat × List Nat)
  | _, [] => .error .eof
  | limit, b :: rest =>
    if b = 10 then .ok ([], rest)
    else
      match limit with
      | 0 => .error .invalidHeader
      | l + 1 =>
        match splitHeader l rest with
        | .ok (h, r) => .ok (b :: h, r)
        | .error e => .error e

/-- host.py lp_read(stdout_stream, max_bytes): read the header line
(≤ 64 bytes before the newline), parse the length, reject negative or
oversize lengths, read exactly that many payload bytes, deserialise.
dec stands for json.loads on the payload bytes. -/
def lpReadHost {α : Type} (dec : List Nat → Option α) (maxBytes : Nat)
    (input : List Nat) : Except HostReadErr (α × List Nat) :=
  match splitHeader 64 input with
  | .error e => .error e
  | .ok (header, rest) =>
    match parseHeaderHost header with
    | none => .error .badInt
    | some len =>
      if len < 0 ∨ (maxBytes : Int) < len then .error .frameTooLarge
      else
        let n := len.toNat
        if rest.length < n then .error .truncated
        else
          match dec (rest.take n) with
          | none => .error .badJson
          | some v => .ok (v, rest.drop n)

/-- host.py lp_write / guest_helpers.py lp_write, at the byte level:
ASCII decimal payload length, newline, payload (the payload being the
serialiser's output). -/
def lpWriteBytes (payload : List Nat) : List Nat :=
  asciiDecimal payload.length ++ [10] ++ payload

/-- A sequence of frames as written by one side: the concatenation of the
individual frames of the serialised objects. -/
def writeFrames {α : Type} (enc : α → List Nat) : List α → List Nat
  | [] => []
  | o :: os => lpWriteBytes (enc o) ++ writeFrames enc os

/-- Repeatedly read frames until the stream is exhausted.  The fuel bounds
the number of frames (each frame consumes at least two bytes, so fuel
equal to the number of written frames always suffices). -/
def readAllFrames {α : Type} (dec : List Nat → Option α) (maxBytes : Nat) :
    Nat → List Nat → Except HostReadErr (List α)
  | _, [] => .ok []
  | 0, _ :: _ => .error .eof
  | fuel + 1, b :: rest =>
    match lpReadHost dec maxBytes (b :: rest) with
    | .error e => .error e
    | .ok (a, rest') =>
      match readAllFrames dec maxBytes fuel rest' with
      | .error e => .error e
      | .ok as => .ok (a :: as)

/-- Errors of the guest frame reader (guest_helpers.py lp_read): the int()
ValueError on a malformed header, EOFError mid-payload, and
json.JSONDecodeError. -/
inductive GuestReadErr where
  | badInt : GuestReadErr
  | truncated : GuestReadErr
  | badJson : GuestReadErr
deriving DecidableEq

/-- Split the header line off a byte stream, guest side: no length limit;
none models EOF before the newline (where the guest returns None). -/
def splitHeaderGuest : List Nat → Option (List Nat × List Nat)
  | [] => none
  | b :: rest =>
    if b = 10 then some ([], rest)
    else
      match splitHeaderGuest rest with
      | some (h, r) => some (b :: h, r)
      | none => none

/-- guest_helpers.py lp_read: EOF before the header yields None; a
zero-length frame yields None without touching the deserialiser; otherwise
read the payload and deserialise.  (A negative header value skips the
payload loop and feeds the empty byte string to json.loads, which
fails.) -/
def lpReadGuest {α : Type} (dec : List Nat → Option α)
    (input : List Nat) : Except GuestReadErr (Option α × List Nat) :=
  match splitHeaderGuest input with
  | none => .ok (none, [])
  | some (header, rest) =>
    match parsePyIntCore (stripWsBytes header) with
    | none => .error .badInt
    | some len =>
      if len = 0 then .ok (none, rest)
      else
        let n := len.toNat
        if rest.length < n then .error .truncated
        else
          match dec (rest.take n) with
          | none => .error .badJson
          | some v => .ok (some v, rest.drop n)

/-! ## Executable model of json.loads

A recursive-descent parser over byte lists, total via a fuel argument so
that concrete frames evaluate by rfl/decide.  Restrictions versus the
stdlib (documented, unexercised by the repository's frames): numbers are
integers (no fraction/exponent), string escapes are the common subset
without unicode escapes, duplicate object keys keep the first binding. -/

/-- Skip JSON whitespace bytes (space, tab, newline, carriage return). -/
def skipWsB (l : List Nat) : List Nat :=
  l.dropWhile (fun b => b = 32 || b = 9 || b = 10 || b = 13)

/-- Longest digit prefix and the remainder. -/
def spanDigits : List Nat → List Nat × List Nat
  | [] => ([], [])
  | b :: r =>
    if isDigitByte b then
      let (d, rest) := spanDigits r
      (b :: d, rest)
    else ([], b :: r)

/-- Parse the remainder of a JSON string after the opening quote,
returning its characters.  Escapes: \" \\ \/ \n \t \r; others fail. -/
def parseStrChars : List Nat → Option (List Char × List Nat)
  | [] => none
  | 34 :: r => some ([], r)
  | 92 :: e :: r =>
    let c? : Option Char :=
      if e = 34 then some '"'
      else if e = 92 then some '\\'
      else if e = 47 then some '/'
      else if e = 110 then some '\n'
      else if e = 116 then some '\t'
      else if e = 114 then some '\r'
      else none
    match c? with
    | none => none
    | some ch =>
      match parseStrChars r with
      | some (cs, r') => some (ch :: cs, r')
      | none => none
  | b :: r =>
    match parseStrChars r with
    | some (cs, r') => some (Char.ofNat b :: cs, r')
    | none => none

/-- Parser modes: a single value, the items of a non-empty array, the
items of a non-empty object. -/
inductive PMode where
  | val : PMode
  | arrItems : PMode
  | objItems : PMode

/-- Parse an integer number token starting at ds (already known to start
with a digit); fails when a fraction or exponent follows (floats are
outside the model). -/
def parseNumToken (neg : Bool) (ds : List Nat) : Option (Json × List Nat) :=
  let (digits, rest) := spanDigits ds
  if digits.isEmpty then none
  else
    match rest with
    | 46 :: _ => none
    | 101 :: _ => none
    | 69 :: _ => none
    | _ =>
      let v : Int := (parseDigits digits : Nat)
      some (.num (if neg then -v else v), rest)

/-- The recursive-descent core of the json.loads model. -/
def parseJ : Nat → PMode → List Nat → Option (Json × List Nat)
  | 0, _, _ => none
  | fuel + 1, .val, s =>
    (match skipWsB s with
     | [] => none
     | 110 :: 117 :: 108 :: 108 :: r => some (.null, r)
     | 116 :: 114 :: 117 :: 101 :: r => some (.bool true, r)
     | 102 :: 97 :: 108 :: 115 :: 101 :: r => some (.bool false, r)
     | 34 :: r =>
       match parseStrChars r with
       | some (cs, r') => some (.str (String.mk cs), r')
       | none => none
     | 91 :: r =>
       (match skipWsB r with
        | 93 :: r' => some (.arr [], r')
        | r' =>
          match parseJ fuel .arrItems r' with
          | some (v, r'') => some (v, r'')
          | none => none)
     | 123 :: r =>
       (match skipWsB r with
        | 125 :: r' => some (.obj [], r')
        | r' =>
          match parseJ fuel .objItems r' with
          | some (v, r'') => some (v, r'')
          | none => none)
     | 45 :: r => parseNumToken true r
     | b :: r =>
       if isDigitByte b then parseNumToken false (b :: r) else none)
  | fuel + 1, .arrItems, s =>
    (match parseJ fuel .val s with
     | none => none
     | some (v, r) =>
       match skipWsB r with
       | 44 :: r2 =>
         (match parseJ fuel .arrItems r2 with
          | some (.arr xs, r3) => some (.arr (v :: xs), r3)
          | _ => none)
       | 93 :: r2 => some (.arr [v], r2)
       | _ => none)
  | fuel + 1, .objItems, s =>
    (match skipWsB s with
     | 34 :: r =>
       (match parseStrChars r with
        | none => none
        | some (keyChars, r1) =>
          match skipWsB r1 with
          | 58 :: r2 =>
            (match parseJ fuel .val r2 with
             | none => none
             | some (v, r3) =>
               match skipWsB r3 with
               | 44 :: r4 =>
                 (match parseJ fuel .objItems r4 with
                  | some (.obj kvs, r5) => some (.obj ((String.mk keyChars, v) :: kvs), r5)
                  | _ => none)
               | 125 :: r4 => some (.obj [(String.mk keyChars, v)], r4)
               | _ => none)
          | _ => none)
     | _ => none)

/-- Executable model of json.loads on payload bytes: parse one value and
require only trailing whitespace; none models json.JSONDecodeError (in
particular json.loads(b"") fails: no value can be parsed from the empty
input). -/
def pyJsonLoads (bs : List Nat) : Option Json :=
  match parseJ (4 * bs.length + 8) .val bs with
  | some (v, r) => if (skipWsB r).isEmpty then some v else none
  | none => none

/-! ## Guest main loop (guest.py) -/

/-- A value stored in the guest interpreter's persistent globals.  The
loop never inspects stored values beyond replacing the whole mapping; the
string case is enough to express the fresh namespace. -/
inductive PyVal where
  | str (s : String) : PyVal
  | other (tag : Nat) : PyVal
deriving DecidableEq

/-- The guest's persistent globals G, an insertion-ordered mapping. -/
abbrev Globals := List (String × PyVal)

/-- The fresh namespace installed by a reset:
G.clear(); G["__name__"] = "__main__". -/
def freshGlobals : Globals := [("__name__", PyVal.str "__main__")]

/-- The initial value of G at guest startup (guest.py line 7), identical
to the post-reset namespace. -/
def initialGlobals : Globals := [("__name__", PyVal.str "__main__")]

/-- The acknowledgement frame written for reset and exit. -/
def okTrueMsg : Json := Json.obj [("ok", .bool true)]

/-- The error frame written for an unhandled top-level type t:
ok false, error.msg = "unknown type: " followed by str(t). -/
def unknownTypeMsg (t : Option Json) : Json :=
  Json.obj [("ok", .bool false),
            ("error", Json.obj [("msg", .str ("unknown type: " ++ pyStrOfOpt t))])]

/-- The exec_request reply: run_cell's dict gains type "exec_result" when
absent (result.setdefault); non-dict results pass through unchanged. -/
def execResultFrame (res : Json) : Json :=
  match res with
  | .obj kvs => Json.setdefault (.obj kvs) "type" (.str "exec_result")
  | other => other

/-- One dispatch of the guest main loop (guest.py lines 44-62) on a
decoded truthy frame.  runCell stands for run_cell (whose body exec-utes
python code and is external to the model): it receives req.get("code", "")
and the globals and returns the result frame and the updated globals.
Output: frames written, new globals, whether the loop continues.
The tool_result branch only side-logs: it writes nothing. -/
def guestStep (runCell : Json → Globals → Json × Globals) (G : Globals)
    (req : Json) : List Json × Globals × Bool :=
  match req.get "type" with
  | some (.str "exec_request") =>
    let (res, G') := runCell (req.getD "code" (.str "")) G
    ([execResultFrame res], G', true)
  | some (.str "tool_result") => ([], G, true)
  | some (.str "reset") => ([okTrueMsg], freshGlobals, true)
  | some (.str "exit") => ([okTrueMsg], G, false)
  | t => ([unknownTypeMsg t], G, true)

/-- The guest main loop over a stream of lp_read results (none is a null
frame or EOF): a falsy frame breaks the loop; otherwise dispatch and
continue while the dispatch says so.  Returns all frames written and the
final globals. -/
def guestLoop (runCell : Json → Globals → Json × Globals) (G : Globals) :
    List (Option Json) → List Json × Globals
  | [] => ([], G)
  | none :: _ => ([], G)
  | some req :: rest =>
    if req.pyFalsy then ([], G)
    else
      let (outs, G', cont) := guestStep runCell G req
      if cont then
        let (outs2, G'') := guestLoop runCell G' rest
        (outs ++ outs2, G'')
      else (outs, G')

/-! ## Guest tool runtime (guest_helpers.py: tool_call, ToolRuntime) -/

/-- Failures of the guest tool_call helper (ToolCallError). -/
inductive ToolCallErr where
  | shutdown : ToolCallErr
  | unexpectedType : ToolCallErr
  | mismatchedId : ToolCallErr
  | blocked : ToolCallErr
deriving DecidableEq

/-- Deadline computed by ToolRuntime.await-response:
time.monotonic() + timeout if timeout and timeout > 0 else None.
The clock value is a parameter. -/
def computeDeadline (now timeout : Rat) : Option Rat :=
  if timeout ≠ 0 ∧ 0 < timeout then some (now + timeout) else none

/-- The while-loop of ToolRuntime await-response over the stream of
lp_read results: null and non-dict messages are skipped, as are falsy
dicts; a dict whose type is not "tool_result" raises ToolCallError, as
does a mismatched id; a matching tool_result is returned whole.  The
deadline is never consulted inside this loop (the loop blocks on lp_read
alone); an exhausted stream stands for blocking forever. -/
def awaitLoop (requestId : String) : List (Option Json) → Except ToolCallErr Json
  | [] => .error .blocked
  | none :: rest => awaitLoop requestId rest
  | some m :: rest =>
    if !m.isObj then awaitLoop requestId rest
    else if m.pyFalsy then awaitLoop requestId rest
    else
      match m.get "type" with
      | some (.str "tool_result") =>
        match m.get "id" with
        | some (.str i) => if i = requestId then .ok m else .error .mismatchedId
        | _ => .error .mismatchedId
      | _ => .error .unexpectedType

/-- ToolRuntime await-response: fail when the runtime was shut down,
compute the deadline from the timeout, then run the receive loop (which
never reads the deadline). -/
def awaitResponse (closed : Bool) (requestId : String) (now timeout : Rat)
    (msgs : List (Option Json)) : Except ToolCallErr Json :=
  if closed then .error .shutdown
  else
    let _deadline := computeDeadline now timeout
    awaitLoop requestId msgs

/-- ToolRuntime.invoke: build the tool_request payload (type, id, name,
arguments in dict-literal order), write it, then await the response.  The
fresh uuid request id and the singleton's closed flag are parameters;
returns the frame written together with the await outcome. -/
def toolRuntimeInvoke (closed : Bool) (requestId functionName : String)
    (args : Json) (now timeout : Rat) (msgs : List (Option Json)) :
    Json × Except ToolCallErr Json :=
  let payload := Json.obj [("type", .str "tool_request"), ("id", .str requestId),
                           ("name", .str functionName), ("arguments", args)]
  (payload, awaitResponse closed requestId now timeout msgs)

/-- guest_helpers.tool_call(function_name, args, timeout=30.0): delegate
to the singleton runtime's invoke. -/
def tool_call (closed : Bool) (requestId functionName : String) (args : Json)
    (now timeout : Rat) (msgs : List (Option Json)) :
    Json × Except ToolCallErr Json :=
  toolRuntimeInvoke closed requestId functionName args now timeout msgs

/-! ## Host session (host.py: ExecResult, exec_cell, tool-request handler) -/

/-- host.py ExecResult dataclass. -/
structure ExecResult where
  ok : Bool
  stdout : String
  stderr : String
  wall_ms : Nat
  error : Option String
deriving DecidableEq

/-- python exceptions surfaced by the modelled paths. -/
inductive PyExc where
  | typeError : PyExc
  | assertionError : PyExc
  | attributeError : PyExc
  | jsonDecodeError : PyExc
deriving DecidableEq

/-- resp.get("stdout") or "" — a missing or falsy field yields the empty
string.  (A truthy non-string would be kept by python; the guest only ever
sends strings here.) -/
def pyStrOrEmpty (o : Option Json) : String :=
  match o with
  | some (.str s) => s
  | _ => ""

/-- (resp.get("error") or dict()).get("msg") as an optional string; a
non-string msg is rendered with str() (the host itself only ever builds
string msgs). -/
def jsonGetMsg (ev : Json) : Option String :=
  match ev.get "msg" with
  | some (.str s) => some s
  | some v => some (pyStrOfJson v)
  | none => none

/-- The synthetic response dict built by exec_cell's except branches:
ok False, empty stdout/stderr, error.msg = the message. -/
def failResp (msg : String) : Json :=
  Json.obj [("ok", .bool false), ("stdout", .str ""), ("stderr", .str ""),
            ("error", Json.obj [("msg", .str msg)])]

/-- How the receive cycle of one exec_cell ended: a decoded terminal
response frame, a wasmtime Trap, or some other exception message. -/
inductive ExecOutcome where
  | resp (j : Json) : ExecOutcome
  | trap : ExecOutcome
  | exn (msg : String) : ExecOutcome

/-- host.py exec_cell result assembly (lines 282-318): a Trap becomes
"Timeout after N ms" when the timer set the timed_out flag and "Trap"
otherwise; any other exception becomes its message; either way exec_cell
returns an ExecResult instead of raising.  Drained raw stderr bytes are
appended to the response's stderr; ExecResult.error is the msg of the
response's error object when the latter is truthy, else the except-branch
text. -/
def execCellFinish (timeoutMs : Nat) (timedOut : Bool) (outcome : ExecOutcome)
    (rawStderr : String) (wallMs : Nat) : ExecResult :=
  let trapMsg := if timedOut then "Timeout after " ++ toString timeoutMs ++ " ms" else "Trap"
  let (resp, errText) : Json × Option String :=
    match outcome with
    | .resp j => (j, none)
    | .trap => (failResp trapMsg, some trapMsg)
    | .exn m => (failResp m, some m)
  { ok := pyTruthyOpt (resp.get "ok")
    stdout := pyStrOrEmpty (resp.get "stdout")
    stderr := pyStrOrEmpty (resp.get "stderr") ++ rawStderr
    wall_ms := wallMs
    error :=
      match resp.get "error" with
      | some ev => if ev.pyFalsy then errText else jsonGetMsg ev
      | none => errText }

/-- Outcome of the user callback inside the session's tool-request
handler: a returned value (modelled as decoded JSON; any non-dict stands
for a non-mapping) or a raised exception with its class name and
message. -/
inductive CallbackOutcome where
  | ret (v : Json) : CallbackOutcome
  | raise (excType excMsg : String) : CallbackOutcome

/-- host.py Session tool-request handler (lines 333-358): a missing or
falsy request id writes nothing; a raising callback yields a tool_result
frame with an error body; a dict result is written after
setdefault("type")/setdefault("id"); a non-mapping result trips the
assert isinstance(result, dict), whose AssertionError propagates out of
the handler before any frame is written. -/
def handleToolRequest (message : Json) (cb : CallbackOutcome) :
    Except PyExc (Option Json) :=
  match message.get "id" with
  | none => .ok none
  | some idv =>
    if idv.pyFalsy then .ok none
    else
      match cb with
      | .raise ty m =>
        .ok (some (Json.obj [("type", .str "tool_result"), ("id", idv),
          ("error", Json.obj [("type", .str ty), ("message", .str m)])]))
      | .ret v =>
        match v with
        | .obj kvs =>
          .ok (some (Json.setdefault (Json.setdefault (.obj kvs) "type" (.str "tool_result")) "id" idv))
        | _ => .error .assertionError

/-! ## Facade (package init: ToolIsCode) -/

/-- ToolIsCode.tool_call (package init lines 81-99).  exec stands for
wasi_service.exec_cell applied to the facade's session: it receives the
code value and returns its ExecResult.  The result pairs the returned
function_call_output record with the list of code values actually passed
to exec_cell.  Mirrors the source: assert the record type and name, parse
the arguments JSON string, and run the cell only when the extracted code
value is truthy — a missing or falsy code yields output "" without
touching the session. -/
def facadeToolCall (exec : Json → ExecResult) (funcCall : Json) :
    Except PyExc (Json × List Json) :=
  match funcCall.get "type" with
  | some (.str "function_call") =>
    (match funcCall.get "name" with
     | some (.str "python") =>
       (match funcCall.get "arguments" with
        | some (.str s) =>
          (match pyJsonLoads (strBytes s) with
           | none => .error .jsonDecodeError
           | some args =>
             match args with
             | .obj kvs =>
               let mkOut : Json → List Json → Except PyExc (Json × List Json) :=
                 fun output invoked =>
                   .ok (Json.obj [("type", .str "function_call_output"),
                                  ("call_id", funcCall.getD "call_id" .null),
                                  ("output", output)], invoked)
               (match (Json.obj kvs).get "code" with
                | some cv =>
                  if cv.pyFalsy then mkOut (.str "") []
                  else
                    let r := exec cv
                    let output : Json :=
                      if r.ok then .str r.stdout
                      else match r.error with
                           | some e => .str e
                           | none => .null
                    mkOut output [cv]
                | none => mkOut (.str "") [])
             | _ => .error .attributeError)
        | _ => .error .typeError)
     | _ => .error .assertionError)
  | _ => .error .assertionError

/-! ## Stub generator surface (functions.py: ToolFunctionEmitter) and the
facade construction sequence (package init: ToolIsCode) -/

/-- Positional-parameter shape of a python callable: how many
positional-or-keyword parameters it has, and how many of them lack
defaults.  Keyword-only parameters (after *) never bind positionally. -/
structure PySig where
  nPositional : Nat
  nRequired : Nat
deriving DecidableEq

/-- Does a call with nArgs positional arguments bind without a TypeError? -/
def acceptsPositional (sig : PySig) (nArgs : Nat) : Bool :=
  sig.nRequired ≤ nArgs && nArgs ≤ sig.nPositional

/-- guest_helpers.tool_call(function_name, args, *, timeout=30.0):
two positional parameters, both required. -/
def guestToolCallSig : PySig := ⟨2, 2⟩

/-- runtime.tool_call(function_name, args, *, timeout=30.0): the same
shape. -/
def runtimeToolCallSig : PySig := ⟨2, 2⟩

/-- ToolFunctionEmitter.init(self, session_id, tools): two required
positional parameters beyond self. -/
def emitterInitSig : PySig := ⟨2, 2⟩

/-- WasiService.create_session(self, callback): one required positional
parameter beyond self. -/
def createSessionSig : PySig := ⟨1, 1⟩

/-- python repr of a string without quotes or backslashes (the session ids
and tool names rendered by the emitter), as emitted by
ToolFunctionEmitter. -/
def pyReprStr (s : String) : String := "'" ++ s ++ "'"

/-- The positional arguments of the call emitted on the last line of each
generated stub function (functions.py lines 153-154): the session id
literal, the tool name literal, and the assembled args model. -/
def emittedCallArgs (sessionId toolName : String) : List String :=
  [pyReprStr sessionId, pyReprStr toolName, "args"]

/-- The final line the emitter writes for a stub function. -/
def emitReturnLine (sessionId toolName : String) : String :=
  "    return tool_call(" ++ String.intercalate ", " (emittedCallArgs sessionId toolName) ++ ")"

/-- python keywords (keyword.kwlist); the emitter consults this after
lowercasing, so only all-lowercase entries can ever match. -/
def pythonKeywords : List String :=
  ["False", "None", "True", "and", "as", "assert", "async", "await",
   "break", "class", "continue", "def", "del", "elif", "else", "except",
   "finally", "for", "from", "global", "if", "import", "in", "is",
   "lambda", "nonlocal", "not", "or", "pass", "raise", "return", "try",
   "while", "with", "yield"]

/-- Is the character a regex word character (ASCII fragment of \w:
letters, digits, underscore)? -/
def isWordChar (c : Char) : Bool :=
  (('a' ≤ c && c ≤ 'z') || ('A' ≤ c && c ≤ 'Z') || ('0' ≤ c && c ≤ '9') || c = '_')

/-- re.sub of non-word runs by single underscores: the flag records
whether the previous character already started a non-word run. -/
def subNonWordAux : List Char → Bool → List Char
  | [], _ => []
  | c :: rest, inRun =>
    if isWordChar c then c :: subNonWordAux rest false
    else if inRun then subNonWordAux rest true
    else '_' :: subNonWordAux rest true

/-- str.strip of a single character from both ends. -/
def stripChar (c : Char) (l : List Char) : List Char :=
  ((l.dropWhile (· = c)).reverse.dropWhile (· = c)).reverse

/-- ToolFunctionEmitter to-identifier normalisation (functions.py lines
252-261): replace non-word runs by underscores, strip underscores, default
to "tool" when empty, lowercase, prefix "tool_" before a leading digit,
suffix an underscore on keyword collision.  ASCII case mapping (the
descriptors handled here are ASCII). -/
def toIdentifier (name : String) : String :=
  let s := stripChar '_' (subNonWordAux name.toList false)
  let s := if s.isEmpty then "tool".toList else s
  let s := s.map Char.toLower
  let s := if (s.headD 'a').isDigit then "tool_".toList ++ s else s
  let out := String.mk s
  if pythonKeywords.contains out then out ++ "_" else out

/-- The keyword names used to build the args model inside a generated stub
(functions.py line 151 with param.name = to-identifier of the wire name,
line 169): the identifier-normalised names, not the original wire
names. -/
def emittedInitKwargNames (originalNames : List String) : List String :=
  originalNames.map toIdentifier

/-- One step of the facade constructor (package init lines 53-65). -/
inductive InitStep where
  | emitterConstructed : InitStep
  | sessionCreated : InitStep
  | wroteFile (name : String) : InitStep
deriving DecidableEq

/-- ToolIsCode.init as a sequence of effects: it evaluates
ToolFunctionEmitter(self.orig-tools) — one positional argument — and
wasi_service.create_session(callback, self.tool-source) — two positional
arguments.  A failed binding raises TypeError at that point.  No step in
the source writes any file: the constant naming sdk.py (line 32) is never
used. -/
def toolIsCodeInitSteps : Except PyExc (List InitStep) :=
  if acceptsPositional emitterInitSig 1 then
    if acceptsPositional createSessionSig 2 then
      .ok [.emitterConstructed, .sessionCreated]
    else .error .typeError
  else .error .typeError

/-! ## Lemmas about the framing codec -/

theorem digitsLE_eq_digits : ∀ (fuel n : Nat), n ≤ fuel → digitsLE fuel n = Nat.digits 10 n := by
  intro fuel
  induction fuel with
  | zero =>
    intro n hn
    have : n = 0 := Nat.le_zero.mp hn
    subst this
    simp [digitsLE]
  | succ f ih =>
    intro n hn
    by_cases h0 : n = 0
    · subst h0; simp [digitsLE]
    · have hpos : 0 < n := Nat.pos_of_ne_zero h0
      have hlt : n / 10 < n := Nat.div_lt_self hpos (by norm_num)
      have hdiv : n / 10 ≤ f := by omega
      rw [digitsLE, if_neg h0, ih _ hdiv,
        ← Nat.digits_def' (by norm_num : (1 : ℕ) < 10) hpos]

theorem foldl_mul_add_reverse (ds : List Nat) (acc : Nat) :
    ds.reverse.foldl (fun a d => a * 10 + d) acc
      = acc * 10 ^ ds.length + Nat.ofDigits 10 ds := by
  induction ds generalizing acc with
  | nil => simp [Nat.ofDigits]
  | cons d t ih =>
    simp only [List.reverse_cons, List.foldl_append, List.foldl_cons, List.foldl_nil, ih,
      Nat.ofDigits_cons, List.length_cons, pow_succ]
    ring

theorem parseDigits_map_add48 (ds : List Nat) :
    parseDigits ((ds.map (· + 48)).reverse) = Nat.ofDigits 10 ds := by
  unfold parseDigits
  rw [← List.map_reverse]
  rw [List.foldl_map]
  simp only [Nat.add_sub_cancel]
  rw [foldl_mul_add_reverse]
  simp

theorem parseDigits_asciiDecimal (n : Nat) : parseDigits (asciiDecimal n) = n := by
  by_cases h0 : n = 0
  · subst h0; simp [asciiDecimal, parseDigits]
  · rw [asciiDecimal, if_neg h0, digitsLE_eq_digits n n le_rfl,
      parseDigits_map_add48, Nat.ofDigits_digits]

theorem asciiDecimal_mem (n : Nat) : ∀ b ∈ asciiDecimal n, 48 ≤ b ∧ b ≤ 57 := by
  intro b hb
  by_cases h0 : n = 0
  · subst h0
    simp [asciiDecimal] at hb
    omega
  · rw [asciiDecimal, if_neg h0, digitsLE_eq_digits n n le_rfl] at hb
    rw [List.mem_reverse, List.mem_map] at hb
    obtain ⟨d, hd, rfl⟩ := hb
    have := Nat.digits_lt_base (by norm_num : (1 : ℕ) < 10) hd
    omega

theorem asciiDecimal_ne_nil (n : Nat) : asciiDecimal n ≠ [] := by
  by_cases h0 : n = 0
  · subst h0; simp [asciiDecimal]
  · rw [asciiDecimal, if_neg h0, digitsLE_eq_digits n n le_rfl]
    simp [Nat.digits_ne_nil_iff_ne_zero, h0]

theorem asciiDecimal_length_le (n bound : Nat) (h : n < 10 ^ bound) (hb : 1 ≤ bound) :
    (asciiDecimal n).length ≤ bound := by
  by_cases h0 : n = 0
  · subst h0; simp [asciiDecimal]; omega
  · rw [asciiDecimal, if_neg h0, digitsLE_eq_digits n n le_rfl]
    rw [List.length_reverse, List.length_map]
    rw [Nat.digits_len 10 n (by norm_num) h0]
    have := Nat.log_lt_of_lt_pow h0 h
    omega

theorem dropWhile_eq_self_of_all {p : Nat → Bool} :
    ∀ l : List Nat, (∀ b ∈ l, p b = false) → l.dropWhile p = l := by
  intro l h
  cases l with
  | nil => rfl
  | cons b r => simp [List.dropWhile_cons, h b (by simp)]

theorem stripWs_asciiDecimal (n : Nat) : stripWsBytes (asciiDecimal n) = asciiDecimal n := by
  have hws : ∀ b ∈ asciiDecimal n, isWsByte b = false := by
    intro b hb
    have := asciiDecimal_mem n b hb
    simp [isWsByte]
    omega
  unfold stripWsBytes
  rw [dropWhile_eq_self_of_all _ hws,
    dropWhile_eq_self_of_all _ (fun b hb => hws b (List.mem_reverse.mp hb)),
    List.reverse_reverse]

theorem parseHeaderHost_asciiDecimal (n : Nat) :
    parseHeaderHost (asciiDecimal n) = some (n : Int) := by
  unfold parseHeaderHost
  rw [stripWs_asciiDecimal]
  obtain ⟨b, bs, hbs⟩ := List.exists_cons_of_ne_nil (asciiDecimal_ne_nil n)
  have hdig : ∀ x ∈ asciiDecimal n, isDigitByte x = true := by
    intro x hx
    have := asciiDecimal_mem n x hx
    simp [isDigitByte]
    omega
  have hb48 : 48 ≤ b ∧ b ≤ 57 := asciiDecimal_mem n b (by rw [hbs]; simp)
  have hparse := parseDigits_asciiDecimal n
  rw [hbs] at hparse hdig ⊢
  rw [if_neg (by simp)]
  simp only [parsePyIntCore]
  rw [if_neg (by omega : ¬ b = 43), if_neg (by omega : ¬ b = 45),
    if_pos (List.all_eq_true.mpr hdig), hparse]

theorem splitHeader_append (h t : List Nat) :
    ∀ limit, h.length ≤ limit → (∀ b ∈ h, b ≠ 10) →
      splitHeader limit (h ++ 10 :: t) = .ok (h, t) := by
  induction h with
  | nil =>
    intro limit _ _
    cases limit <;> rfl
  | cons c cs ih =>
    intro limit hlen hmem
    have hc : c ≠ 10 := hmem c (by simp)
    match limit with
    | 0 => simp at hlen
    | l + 1 =>
      simp only [List.cons_append, splitHeader, if_neg hc, List.append_eq]
      rw [ih l (by simpa using hlen)
        (fun b hb => hmem b (List.mem_cons_of_mem _ hb))]

theorem lpWriteBytes_ne_nil (payload : List Nat) : lpWriteBytes payload ≠ [] := by
  unfold lpWriteBytes
  simp

theorem lpReadHost_frame {α : Type} (dec : List Nat → Option α) (maxBytes : Nat)
    (payload : List Nat) (a : α) (rest : List Nat)
    (hdec : dec payload = some a) (hlen : payload.length ≤ maxBytes)
    (hmax : maxBytes < 10 ^ 64) :
    lpReadHost dec maxBytes (lpWriteBytes payload ++ rest) = .ok (a, rest) := by
  have hn : payload.length < 10 ^ 64 := lt_of_le_of_lt hlen hmax
  have hshape : lpWriteBytes payload ++ rest
      = asciiDecimal payload.length ++ 10 :: (payload ++ rest) := by
    unfold lpWriteBytes
    simp
  have hno10 : ∀ b ∈ asciiDecimal payload.length, b ≠ 10 := by
    intro b hb
    have := asciiDecimal_mem _ b hb
    omega
  unfold lpReadHost
  rw [hshape,
    splitHeader_append _ _ 64 (asciiDecimal_length_le _ 64 hn (by norm_num)) hno10]
  simp only [parseHeaderHost_asciiDecimal]
  rw [if_neg (by omega)]
  simp only [Int.toNat_natCast]
  rw [if_neg (by simp)]
  have htake : (payload ++ rest).take payload.length = payload := List.take_left _ _
  have hdrop : (payload ++ rest).drop payload.length = rest := List.drop_left _ _
  rw [htake, hdrop, hdec]

/-- C9 auxiliary: reading one frame off the front of a well-formed stream
consumes exactly that frame. -/
theorem readAllFrames_cons {α : Type} (dec : List Nat → Option α) (maxBytes : Nat)
    (fuel : Nat) (payload tail : List Nat) (a : α)
    (hdec : dec payload = some a) (hlen : payload.length ≤ maxBytes)
    (hmax : maxBytes < 10 ^ 64) :
    readAllFrames dec maxBytes (fuel + 1) (lpWriteBytes payload ++ tail)
      = match readAllFrames dec maxBytes fuel tail with
        | .error e => .error e
        | .ok as => .ok (a :: as) := by
  obtain ⟨c, cs, hcc⟩ := List.exists_cons_of_ne_nil (lpWriteBytes_ne_nil payload)
  have hread := lpReadHost_frame dec maxBytes payload a tail hdec hlen hmax
  rw [hcc, List.cons_append] at hread ⊢
  simp only [readAllFrames, hread]

/-! ## Claim theorems -/

/-- C9: framing round-trips.  For every sequence of objects written with
the frame writer (ASCII decimal byte count, newline, then the serialised
bytes), reading the resulting byte stream back with the frame reader
yields an equal sequence of decoded objects in the same order.  The
serialiser/deserialiser pair stands for json.dumps/json.loads (a python
stdlib external to this repository); well-formedness is the hypothesis
that each object round-trips through that codec and fits the frame size
bound. -/
theorem claim9_framing_roundtrip {α : Type} (enc : α → List Nat)
    (dec : List Nat → Option α) (maxBytes : Nat) (objs : List α)
    (hmax : maxBytes < 10 ^ 64)
    (h : ∀ o ∈ objs, dec (enc o) = some o ∧ (enc o).length ≤ maxBytes) :
    readAllFrames dec maxBytes objs.length (writeFrames enc objs) = .ok objs := by
  induction objs with
  | nil => rfl
  | cons o os ih =>
    have h1 := h o (by simp)
    have hrec := ih (fun o' ho' => h o' (List.mem_cons_of_mem _ ho'))
    show readAllFrames dec maxBytes (os.length + 1)
      (lpWriteBytes (enc o) ++ writeFrames enc os) = _
    rw [readAllFrames_cons dec maxBytes os.length (enc o) (writeFrames enc os) o
      h1.1 h1.2 hmax, hrec]

/-- Witness codec for claim9_framing_roundtrip: nonnegative integers as
ASCII decimal text, a fragment of JSON (json.dumps(5) is "5"). -/
def decimalDec (l : List Nat) : Option Nat :=
  if !l.isEmpty && l.all isDigitByte then some (parseDigits l) else none

/-- Witness: two concrete frames round-trip through the codec. -/
theorem claim9_framing_roundtrip_witness :
    readAllFrames decimalDec 2000000 2 (writeFrames asciiDecimal [5, 123])
      = .ok [5, 123] := by
  have h := claim9_framing_roundtrip asciiDecimal decimalDec 2000000 [5, 123]
    (by norm_num) (by decide)
  simpa using h

/-- C5: a WASM trap during exec_cell is returned, not raised: the
ExecResult has ok = false and its error is "Timeout after <t> ms" when the
interrupt timer set the timed_out flag, "Trap" otherwise. -/
theorem claim5_trap_result (timeoutMs : Nat) (timedOut : Bool)
    (rawStderr : String) (wallMs : Nat) :
    (execCellFinish timeoutMs timedOut .trap rawStderr wallMs).ok = false
    ∧ (execCellFinish timeoutMs timedOut .trap rawStderr wallMs).error
        = some (if timedOut then "Timeout after " ++ toString timeoutMs ++ " ms"
                else "Trap") := by
  cases timedOut <;> exact ⟨rfl, rfl⟩

/-- C10: the timeout argument of the guest tool_call helper has no effect:
the await loop computes a deadline from it but never consults it while
blocking on lp_read, so two invocations differing only in the timeout
write the same tool_request frame, perform the same reads and return (or
raise) identically. -/
theorem claim10_timeout_no_effect (closed : Bool) (requestId functionName : String)
    (args : Json) (now : Rat) (msgs : List (Option Json)) (t1 t2 : Rat) :
    tool_call closed requestId functionName args now t1 msgs
      = tool_call closed requestId functionName args now t2 msgs := by
  cases closed <;> rfl

/-- The reset frame sent by the host. -/
def resetFrame : Json := Json.obj [("type", .str "reset")]

/-- C8: reset is idempotent on the guest: a reset acknowledges with
ok = true and installs the fresh namespace whatever the globals were, so
two back-to-back resets yield two acknowledgements and leave the globals
equal to the fresh namespace after each one. -/
theorem claim8_reset_idempotent (runCell : Json → Globals → Json × Globals)
    (G : Globals) :
    guestStep runCell G resetFrame = ([okTrueMsg], freshGlobals, true)
    ∧ guestLoop runCell G [some resetFrame, some resetFrame]
        = ([okTrueMsg, okTrueMsg], freshGlobals) :=
  ⟨rfl, rfl⟩

/-- A concrete stand-in for run_cell where the dispatch branch under test
never consults it. -/
def nopRunCell : Json → Globals → Json × Globals := fun _ G => (Json.null, G)

/-- A stray tool_result frame at the guest top level. -/
def toolResultFrame : Json :=
  Json.obj [("type", .str "tool_result"), ("id", .str "x1")]

/-- C7 counterexample: the claim says every top-level frame whose type is
not exec_request/reset/exit — explicitly including a stray tool_result —
is answered with one ok-false unknown-type frame; but the guest dispatch
on a tool_result frame writes no frame at all (guest.py lines 53-54 only
side-log it). -/
theorem claim7_counterexample :
    guestStep nopRunCell freshGlobals toolResultFrame = ([], freshGlobals, true) :=
  rfl

/-- A frame whose type field is set never tests falsy. -/
theorem get_some_not_falsy (f : Json) (k : String) (v : Json)
    (h : f.get k = some v) : f.pyFalsy = false := by
  cases f with
  | obj kvs =>
    cases kvs with
    | nil => simp [Json.get, Json.get.lookupKV] at h
    | cons p rest => simp [Json.pyFalsy]
  | null => simp [Json.get] at h
  | bool b => simp [Json.get] at h
  | num n => simp [Json.get] at h
  | str s => simp [Json.get] at h
  | arr xs => simp [Json.get] at h

/-- C7 amended: for every top-level frame whose type is a string other
than exec_request, reset, exit and tool_result, the guest responds with
exactly one frame of the form ok false / error.msg "unknown type: <t>"; a
stray tool_result is the documented exception (silently ignored, see the
counterexample). -/
theorem claim7_amended (runCell : Json → Globals → Json × Globals)
    (G : Globals) (t : String) (f : Json)
    (hf : f.get "type" = some (.str t))
    (h1 : t ≠ "exec_request") (h2 : t ≠ "reset") (h3 : t ≠ "exit")
    (h4 : t ≠ "tool_result") :
    guestStep runCell G f = ([unknownTypeMsg (some (.str t))], G, true)
    ∧ guestLoop runCell G [some f] = ([unknownTypeMsg (some (.str t))], G) := by
  have hstep : guestStep runCell G f = ([unknownTypeMsg (some (.str t))], G, true) := by
    unfold guestStep
    rw [hf]
    split
    all_goals first
      | rfl
      | (exfalso; simp_all)
  refine ⟨hstep, ?_⟩
  unfold guestLoop
  rw [if_neg (by simp [get_some_not_falsy f "type" _ hf]), hstep]
  simp [guestLoop]

/-- Witness for claim7_amended at the concrete type "bogus". -/
theorem claim7_amended_witness :
    guestStep nopRunCell freshGlobals (Json.obj [("type", .str "bogus")])
      = ([unknownTypeMsg (some (.str "bogus"))], freshGlobals, true)
    ∧ guestLoop nopRunCell freshGlobals [some (Json.obj [("type", .str "bogus")])]
      = ([unknownTypeMsg (some (.str "bogus"))], freshGlobals) :=
  claim7_amended nopRunCell freshGlobals "bogus" (Json.obj [("type", .str "bogus")])
    rfl (by decide) (by decide) (by decide) (by decide)

/-- C6 counterexample: the claim says a zero-length payload is legal on
both sides (the reader succeeds and decodes to null) and that the caller
continues reading subsequent frames.  Concretely: the host reader on the
bytes "0\n" feeds the empty byte string to json.loads and fails with a
decode error (it does not succeed with null), and the guest main loop,
given a null frame followed by a reset frame, stops immediately — the
reset behind the null is never processed and no acknowledgement is
emitted. -/
theorem claim6_counterexample :
    lpReadHost pyJsonLoads 2000000 (strBytes "0\n") = .error .badJson
    ∧ guestLoop nopRunCell freshGlobals [none, some resetFrame] = ([], freshGlobals) :=
  ⟨rfl, rfl⟩

/-- C6 amended: a zero-length payload is special-cased only by the
guest-side reader, which returns null without invoking json.loads; the
host-side reader fails on it (empty JSON text).  The guest tool-result
await loop treats null as no message and keeps reading; the guest main
loop treats a null frame as end of input and stops. -/
theorem claim6_amended :
    (∀ rest : List Nat,
        lpReadGuest pyJsonLoads (48 :: 10 :: rest) = .ok (none, rest))
    ∧ lpReadHost pyJsonLoads 2000000 (strBytes "0\n") = .error .badJson
    ∧ (∀ (rid : String) (now t : Rat) (msgs : List (Option Json)),
        awaitResponse false rid now t (none :: msgs)
          = awaitResponse false rid now t msgs)
    ∧ (∀ (runCell : Json → Globals → Json × Globals) (G : Globals)
        (rest : List (Option Json)),
        guestLoop runCell G (none :: rest) = ([], G)) :=
  ⟨fun _ => rfl, rfl, fun _ _ _ _ => rfl, fun _ _ _ => rfl⟩

/-- The tool_request frame used to exercise the host handler. -/
def w4msg : Json :=
  Json.obj [("type", .str "tool_request"), ("id", .str "abc"),
            ("name", .str "echo"), ("arguments", Json.obj [])]

/-- C4 counterexample: the claim says a callback returning a non-mapping
is also answered with a well-formed error tool_result; but when the
callback returns the non-mapping 5, the handler's
assert isinstance(result, dict) fires and the AssertionError propagates
before any frame is written — the handler produces no tool_result at
all. -/
theorem claim4_counterexample :
    handleToolRequest w4msg (.ret (.num 5)) = .error .assertionError :=
  rfl

/-- C4 amended: a raising callback is answered with exactly one
well-formed tool_result frame carrying an error body (type and message),
and exec_cell turns any escaping exception into an ExecResult with
ok = false instead of raising; but a callback returning a non-mapping
makes the handler itself raise AssertionError without writing any frame
(the exec_cell turn then fails with that error while the call still
returns). -/
theorem claim4_amended :
    (∀ (message idv : Json) (ty m : String),
        message.get "id" = some idv → idv.pyFalsy = false →
        handleToolRequest message (.raise ty m)
          = .ok (some (Json.obj [("type", .str "tool_result"), ("id", idv),
              ("error", Json.obj [("type", .str ty), ("message", .str m)])])))
    ∧ (∀ (message idv v : Json),
        message.get "id" = some idv → idv.pyFalsy = false → v.isObj = false →
        handleToolRequest message (.ret v) = .error .assertionError)
    ∧ (∀ (timeoutMs : Nat) (timedOut : Bool) (rawStderr : String)
        (wallMs : Nat) (m : String),
        (execCellFinish timeoutMs timedOut (.exn m) rawStderr wallMs).ok = false) := by
  refine ⟨?_, ?_, ?_⟩
  · intro message idv ty m hid hidt
    simp [handleToolRequest, hid, hidt]
  · intro message idv v hid hidt hv
    cases v with
    | obj kvs => simp [Json.isObj] at hv
    | null => simp [handleToolRequest, hid, hidt]
    | bool b => simp [handleToolRequest, hid, hidt]
    | num n => simp [handleToolRequest, hid, hidt]
    | str s => simp [handleToolRequest, hid, hidt]
    | arr xs => simp [handleToolRequest, hid, hidt]
  · intro timeoutMs timedOut rawStderr wallMs m
    rfl

/-- Witness for claim4_amended at concrete inputs. -/
theorem claim4_amended_witness :
    handleToolRequest w4msg (.raise "ValueError" "boom")
      = .ok (some (Json.obj [("type", .str "tool_result"), ("id", .str "abc"),
          ("error", Json.obj [("type", .str "ValueError"), ("message", .str "boom")])]))
    ∧ handleToolRequest w4msg (.ret (.arr [])) = .error .assertionError
    ∧ (execCellFinish 8000 false (.exn "") "" 3).ok = false :=
  ⟨claim4_amended.1 w4msg (.str "abc") "ValueError" "boom" rfl rfl,
   claim4_amended.2.1 w4msg (.str "abc") (.arr []) rfl rfl rfl,
   claim4_amended.2.2 8000 false "" 3 ""⟩

/-- The claim's version of the facade tool_call, for comparison with the
source's facadeToolCall: it follows the claim's words — the code value
defaults to the empty string when missing, and the session's exec_cell is
always invoked with it. -/
def facadeToolCallClaimed (exec : Json → ExecResult) (funcCall : Json) :
    Except PyExc (Json × List Json) :=
  match funcCall.get "type" with
  | some (.str "function_call") =>
    (match funcCall.get "name" with
     | some (.str "python") =>
       (match funcCall.get "arguments" with
        | some (.str s) =>
          (match pyJsonLoads (strBytes s) with
           | none => .error .jsonDecodeError
           | some args =>
             match args with
             | .obj kvs =>
               let cv := (Json.obj kvs).getD "code" (.str "")
               let r := exec cv
               let output : Json :=
                 if r.ok then .str r.stdout
                 else match r.error with
                      | some e => .str e
                      | none => .null
               .ok (Json.obj [("type", .str "function_call_output"),
                              ("call_id", funcCall.getD "call_id" .null),
                              ("output", output)], [cv])
             | _ => .error .attributeError)
        | _ => .error .typeError)
     | _ => .error .assertionError)
  | _ => .error .assertionError

/-- A function_call record whose arguments JSON carries no code key. -/
def fcNoCode : Json :=
  Json.obj [("type", .str "function_call"), ("name", .str "python"),
            ("call_id", .str "c1"), ("arguments", .str "\x7b\x7d")]

/-- A session oracle whose execution of any cell succeeds with stdout
"HI". -/
def execHi : Json → ExecResult := fun _ => ⟨true, "HI", "", 1, none⟩

/-- C3 counterexample: on a function_call whose arguments are "{}" (no
code key), the claim predicts one exec_cell invocation with the empty
string and output "HI" (that session's stdout); the source invokes
exec_cell zero times and returns output "" — the if code: guard skips the
session entirely. -/
theorem claim3_counterexample :
    facadeToolCall execHi fcNoCode
      = .ok (Json.obj [("type", .str "function_call_output"),
          ("call_id", .str "c1"), ("output", .str "")], [])
    ∧ facadeToolCallClaimed execHi fcNoCode
      = .ok (Json.obj [("type", .str "function_call_output"),
          ("call_id", .str "c1"), ("output", .str "HI")], [Json.str ""])
    ∧ (([] : List Json) ≠ [Json.str ""]) :=
  ⟨rfl, rfl, by simp⟩

/-- C3 amended: the facade parses the arguments JSON string; when the
extracted code value is a non-empty string it invokes exec_cell exactly
once with it and returns a function_call_output whose output is the
ExecResult's stdout when ok and its error otherwise; when the code key is
missing or its value falsy (in particular the empty string), it returns
output "" without invoking the session. -/
theorem claim3_amended (exec : Json → ExecResult) (funcCall : Json)
    (argStr : String) (cid : Json) (kvs : List (String × Json))
    (hty : funcCall.get "type" = some (.str "function_call"))
    (hname : funcCall.get "name" = some (.str "python"))
    (hargs : funcCall.get "arguments" = some (.str argStr))
    (hcid : funcCall.get "call_id" = some cid)
    (hparse : pyJsonLoads (strBytes argStr) = some (Json.obj kvs)) :
    (∀ c : String, (Json.obj kvs).get "code" = some (.str c) → c ≠ "" →
      facadeToolCall exec funcCall
        = .ok (Json.obj [("type", .str "function_call_output"), ("call_id", cid),
            ("output", if (exec (.str c)).ok then .str (exec (.str c)).stdout
                       else match (exec (.str c)).error with
                            | some e => .str e
                            | none => .null)], [Json.str c]))
    ∧ ((Json.obj kvs).get "code" = none →
        facadeToolCall exec funcCall
          = .ok (Json.obj [("type", .str "function_call_output"),
              ("call_id", cid), ("output", .str "")], []))
    ∧ (∀ cv : Json, (Json.obj kvs).get "code" = some cv → cv.pyFalsy = true →
        facadeToolCall exec funcCall
          = .ok (Json.obj [("type", .str "function_call_output"),
              ("call_id", cid), ("output", .str "")], [])) := by
  refine ⟨?_, ?_, ?_⟩
  · intro c hcode hc
    simp [facadeToolCall, hty, hname, hargs, hparse, hcode, Json.getD, hcid,
      Json.pyFalsy, hc]
  · intro hcode
    simp [facadeToolCall, hty, hname, hargs, hparse, hcode, Json.getD, hcid]
  · intro cv hcode hcv
    simp [facadeToolCall, hty, hname, hargs, hparse, hcode, Json.getD, hcid, hcv]

/-- A function_call record whose arguments JSON carries code
"print(1)". -/
def fcPrint : Json :=
  Json.obj [("type", .str "function_call"), ("name", .str "python"),
            ("call_id", .str "c2"), ("arguments", .str "\x7b\"code\": \"print(1)\"\x7d")]

/-- A session oracle whose execution of any cell succeeds with stdout
"1\n". -/
def execOne : Json → ExecResult := fun _ => ⟨true, "1\n", "", 2, none⟩

/-- Witness for claim3_amended at a concrete function_call record. -/
theorem claim3_amended_witness :
    facadeToolCall execOne fcPrint
      = .ok (Json.obj [("type", .str "function_call_output"),
          ("call_id", .str "c2"), ("output", .str "1\n")], [Json.str "print(1)"]) := by
  have h := (claim3_amended execOne fcPrint "\x7b\"code\": \"print(1)\"\x7d"
    (.str "c2") [("code", .str "print(1)")] rfl rfl rfl rfl rfl).1
    "print(1)" rfl (by decide)
  simpa [execOne] using h

/-- C1 (code bug evidence): every generated stub function ends in a call
with three positional arguments — the session id literal, the tool name
literal and the args model — but both tool_call helpers
(guest_helpers.py and runtime.py) accept exactly two positional
parameters, so invoking a generated stub raises TypeError before any
frame can be emitted.  Moreover the args model is constructed with
keyword arguments named by the identifier normalisation, not the original
wire names (shown at the wire name "include-hourly"); and the emitted
line matches the repository's own expected output for the session
"session-123" / tool "get_weather". -/
theorem claim1_generated_call_arity (sessionId toolName : String) :
    (emittedCallArgs sessionId toolName).length = 3
    ∧ acceptsPositional guestToolCallSig (emittedCallArgs sessionId toolName).length = false
    ∧ acceptsPositional runtimeToolCallSig (emittedCallArgs sessionId toolName).length = false
    ∧ emitReturnLine "session-123" "get_weather"
        = "    return tool_call('session-123', 'get_weather', args)"
    ∧ emittedInitKwargNames ["include-hourly"] = ["include_hourly"] := by
  refine ⟨rfl, rfl, rfl, rfl, ?_⟩
  decide

/-- C2 (code bug evidence): the facade constructor cannot perform the
claimed sequence — its very first call, ToolFunctionEmitter with a single
positional argument, fails to bind against the emitter's two required
parameters (and the later create_session call with two arguments fails
against the service's single parameter), so construction raises TypeError;
in particular no step writes sdk.py (the constant naming it is unused in
the source). -/
theorem claim2_facade_init_raises :
    toolIsCodeInitSteps = .error .typeError
    ∧ acceptsPositional emitterInitSig 1 = false
    ∧ acceptsPositional createSessionSig 2 = false :=
  ⟨rfl, rfl, rfl⟩
